import Mathlib

/-!
Shallow embedding of the `logger` package of go-lagoon-log-forwarder.

The package keeps process-wide mutable variables (addSource, applicationName,
hostname, logChannel, logHost, logPort, logType, messageVersion, a sync.Once
guard, and the installed default slog logger).  We model them as a `State`
record that every operation threads explicitly.  The operating environment
(os.Hostname, UDP address resolution, UDP dialing) is an `Env` oracle.
Observable logging side effects (slog.Warn / slog.Error calls, the attempt to
open the UDP transport, slog.SetDefault) are recorded as an `Event` trace.
-/

/-- The value carried by a slog attribute, restricted to the shapes this
package constructs: integer values, string values, and empty groups. -/
inductive AttrValue where
  | vInt (i : Int)
  | vStr (s : String)
  | emptyGroup
deriving DecidableEq, Repr

/-- A slog attribute: a key paired with a value (Go `slog.Attr`). -/
structure Attr where
  key : String
  value : AttrValue
deriving DecidableEq, Repr

/-- Go `Config` struct (src/unnamed part_003, the current config.go). -/
structure Config where
  AddSource : Bool
  ApplicationName : String
  LogChannel : String
  LogHost : String
  LogPort : Int
  LogType : String
  MessageVersion : Int
deriving DecidableEq, Repr

/-- Go `NewConfig`: the default-populated configuration value. -/
def NewConfig : Config where
  AddSource := true
  ApplicationName := ""
  LogChannel := "LagoonLogs"
  LogHost := ""
  LogPort := 5140
  LogType := ""
  MessageVersion := 1

/-- Which sinks the composed writer feeds: stdout only, or stdout plus the
synchronized UDP writer (io.MultiWriter in Initialize). -/
inductive Sinks where
  | consoleOnly
  | consoleAndRemote
deriving DecidableEq, Repr

/-- The logger value built inside once.Do: the sink layout of its writer, the
AddSource handler option, and the default attributes attached via `.With`. -/
structure Logger where
  sinks : Sinks
  addSource : Bool
  attrs : List Attr
deriving DecidableEq, Repr

/-- The package-level variables of logger.go, plus the `once` guard and the
process-wide default logger installed by slog.SetDefault. -/
structure State where
  addSource : Bool
  applicationName : String
  hostname : String
  logChannel : String
  logHost : String
  logPort : Int
  logType : String
  messageVersion : Int
  onceDone : Bool
  defaultLogger : Option Logger
deriving DecidableEq, Repr

/-- Go zero values of the package-level variables at process start
(the current config.go has no init function). -/
def initialState : State where
  addSource := false
  applicationName := ""
  hostname := ""
  logChannel := ""
  logHost := ""
  logPort := 0
  logType := ""
  messageVersion := 0
  onceDone := false
  defaultLogger := none

/-- Observable side effects of the package: slog.Warn / slog.Error messages,
the attempt to open the UDP transport, and installing the default logger. -/
inductive Event where
  | warn (msg : String)
  | logError (msg : String)
  | connectAttempt (host : String) (port : Int)
  | install
deriving DecidableEq, Repr

/-- The operating environment: the os.Hostname result and whether UDP address
resolution and UDP dialing succeed for a given host and port. -/
structure Env where
  osHostname : String
  resolveOk : String → Int → Bool
  dialOk : String → Int → Bool

/-- Go `validate` (part_003): warn when logHost is empty; fail with
"logType is required" when logType is empty; otherwise succeed. -/
def validate (s : State) : List Event × Except String Unit :=
  let warns :=
    if s.logHost.length = 0 then
      [Event.warn "log.host is not supplied and will default to localhost"]
    else []
  if s.logType.length = 0 then
    (warns, Except.error "logType is required")
  else
    (warns, Except.ok ())

/-- Go `config` (part_003): copy every field of cfg into the package-level
variables, then validate. -/
def config (s : State) (cfg : Config) : State × List Event × Except String Unit :=
  let s' : State :=
    { s with
      addSource := cfg.AddSource
      applicationName := cfg.ApplicationName
      logChannel := cfg.LogChannel
      logHost := cfg.LogHost
      logPort := cfg.LogPort
      logType := cfg.LogType
      messageVersion := cfg.MessageVersion }
  (s', validate s')

/-- Go `defaultAttrs` (logger.go): the constant contextual fields attached to
every record of the installed logger. -/
def defaultAttrs (s : State) : List Attr :=
  [ Attr.mk "@version" (AttrValue.vInt s.messageVersion),
    Attr.mk "application" (AttrValue.vStr s.applicationName),
    Attr.mk "channel" (AttrValue.vStr s.logChannel),
    Attr.mk "context" AttrValue.emptyGroup,
    Attr.mk "extra" AttrValue.emptyGroup,
    Attr.mk "host" (AttrValue.vStr s.hostname),
    Attr.mk "type" (AttrValue.vStr s.logType) ]

/-- Go `replaceAttr` (logger.go): at the top level (empty groups) rename
msg to message, time to @timestamp, timestampOverride to @timestamp;
otherwise pass the attribute through unchanged. -/
def replaceAttr (groups : List String) (a : Attr) : Attr :=
  if groups.length = 0 then
    if a.key = "msg" then { a with key := "message" }
    else if a.key = "time" then { a with key := "@timestamp" }
    else if a.key = "timestampOverride" then { a with key := "@timestamp" }
    else a
  else a

/-- Go `connect` (logger.go): resolve logHost:logPort, then dial UDP; either
step may fail, and each failure logs an error before returning it. -/
def connect (env : Env) (s : State) : List Event × Except String Unit :=
  if env.resolveOk s.logHost s.logPort then
    if env.dialOk s.logHost s.logPort then
      ([Event.connectAttempt s.logHost s.logPort], Except.ok ())
    else
      ([Event.connectAttempt s.logHost s.logPort,
        Event.logError "Failed to dial udp"],
       Except.error "dial error")
  else
    ([Event.connectAttempt s.logHost s.logPort,
      Event.logError "Failed to resolve udp address"],
     Except.error "resolve error")

/-- Go `Initialize` (logger.go): record the hostname, set messageVersion to 3,
apply and validate the configuration (returning its error wrapped with the
"configuration error" prefix), and inside once.Do open the transport
(degrading to stdout only with a warning on failure), build the JSON logger
with the default attributes, and install it as the process default. -/
def Initialize (env : Env) (s : State) (cfg : Config) :
    State × List Event × Except String Unit :=
  let s1 : State := { s with hostname := env.osHostname, messageVersion := 3 }
  let cres := config s1 cfg
  let s2 := cres.1
  match cres.2.2 with
  | Except.error e => (s2, cres.2.1, Except.error ("configuration error: " ++ e))
  | Except.ok _ =>
    if s2.onceDone then
      (s2, cres.2.1, Except.ok ())
    else
      let conn := connect env s2
      match conn.2 with
      | Except.error _ =>
        let lg : Logger :=
          { sinks := Sinks.consoleOnly, addSource := s2.addSource,
            attrs := defaultAttrs s2 }
        ({ s2 with onceDone := true, defaultLogger := some lg },
         cres.2.1 ++ conn.1 ++
           [Event.warn "Failed to connect to UDP endpoint, logging to stdout only",
            Event.install],
         Except.ok ())
      | Except.ok _ =>
        let lg : Logger :=
          { sinks := Sinks.consoleAndRemote, addSource := s2.addSource,
            attrs := defaultAttrs s2 }
        ({ s2 with onceDone := true, defaultLogger := some lg },
         cres.2.1 ++ conn.1 ++ [Event.install],
         Except.ok ())

/-- The top-level attributes of one record emitted through an installed
logger: the built-in time, level and msg fields and the attached default
attributes all pass through replaceAttr with empty groups, then any
caller-supplied top-level attributes. -/
def emitRecord (lg : Logger) (timeVal : AttrValue) (levelStr : String)
    (msg : String) (userAttrs : List Attr) : List Attr :=
  replaceAttr [] (Attr.mk "time" timeVal)
    :: replaceAttr [] (Attr.mk "level" (AttrValue.vStr levelStr))
    :: replaceAttr [] (Attr.mk "msg" (AttrValue.vStr msg))
    :: (lg.attrs.map (replaceAttr []) ++ userAttrs.map (replaceAttr []))

/-- The value of the "type" default attribute of an installed logger. -/
def loggerType (lg : Logger) : Option AttrValue :=
  (lg.attrs.find? fun a => a.key == "type").map Attr.value

/-- States reachable from the process start by any sequence of Initialize
calls, each with an arbitrary environment and configuration. -/
inductive Reachable : State → Prop where
  | init : Reachable initialState
  | step (env : Env) (cfg : Config) (s : State) :
      Reachable s → Reachable (Initialize env s cfg).1

/-- An environment in which UDP resolution and dialing both fail. -/
def envDown : Env where
  osHostname := "test-host"
  resolveOk := fun _ _ => false
  dialOk := fun _ _ => false

/-- An environment in which UDP resolution and dialing both succeed. -/
def envUp : Env where
  osHostname := "test-host"
  resolveOk := fun _ _ => true
  dialOk := fun _ _ => true

instance : DecidableEq (Except String Unit) := fun x y =>
  match x, y with
  | Except.error a, Except.error b =>
    if h : a = b then Decidable.isTrue (h ▸ rfl)
    else Decidable.isFalse (fun hc => h (Except.error.inj hc))
  | Except.error _, Except.ok _ => Decidable.isFalse (fun hc => Except.noConfusion hc)
  | Except.ok _, Except.error _ => Decidable.isFalse (fun hc => Except.noConfusion hc)
  | Except.ok (), Except.ok () => Decidable.isTrue rfl

/-- A string has length zero exactly when it is the empty string. -/
theorem string_length_eq_zero (s : String) : s.length = 0 ↔ s = "" := by
  cases s with
  | mk data =>
    simp [String.length, List.length_eq_zero, String.ext_iff]

/-- Helper: everything a failed-validation Initialize call does, in one
conjunction (used to derive several claim theorems without sharing them). -/
theorem initialize_invalid_aux (env : Env) (s : State) (cfg : Config)
    (h : cfg.LogType = "") :
    (Initialize env s cfg).2.2
        = Except.error "configuration error: logType is required"
    ∧ (Initialize env s cfg).1.defaultLogger = s.defaultLogger
    ∧ (Initialize env s cfg).1.onceDone = s.onceDone
    ∧ (∀ hst p, Event.connectAttempt hst p ∉ (Initialize env s cfg).2.1)
    ∧ Event.install ∉ (Initialize env s cfg).2.1
    ∧ (Initialize env s cfg).1.addSource = cfg.AddSource
    ∧ (Initialize env s cfg).1.applicationName = cfg.ApplicationName
    ∧ (Initialize env s cfg).1.logChannel = cfg.LogChannel
    ∧ (Initialize env s cfg).1.logHost = cfg.LogHost
    ∧ (Initialize env s cfg).1.logPort = cfg.LogPort
    ∧ (Initialize env s cfg).1.logType = cfg.LogType
    ∧ (Initialize env s cfg).1.messageVersion = cfg.MessageVersion
    ∧ (Initialize env s cfg).1.hostname = env.osHostname := by
  have hl : cfg.LogType.length = 0 := by rw [string_length_eq_zero]; exact h
  unfold Initialize config validate
  simp [hl]

/-- Helper: a valid Initialize call from a state whose once guard has not
fired marks the guard as consumed. -/
theorem initialize_installs_aux (env : Env) (s : State) (cfg : Config)
    (h0 : s.onceDone = false) (h1 : cfg.LogType ≠ "") :
    (Initialize env s cfg).1.onceDone = true := by
  have hl : ¬ cfg.LogType.length = 0 := by rw [string_length_eq_zero]; exact h1
  unfold Initialize config validate
  simp [hl, h0]
  split <;> simp

/-- Helper: a valid Initialize call on a state whose once guard has already
fired validates and copies the configuration but leaves the installed logger
untouched, succeeds, and emits at most validation warnings. -/
theorem initialize_done_aux (env : Env) (s : State) (cfg : Config)
    (h0 : s.onceDone = true) (h1 : cfg.LogType ≠ "") :
    (Initialize env s cfg).1.defaultLogger = s.defaultLogger
    ∧ (Initialize env s cfg).2.2 = Except.ok ()
    ∧ (Initialize env s cfg).1.logType = cfg.LogType
    ∧ (Initialize env s cfg).1.messageVersion = cfg.MessageVersion
    ∧ ∀ e ∈ (Initialize env s cfg).2.1, ∃ m, e = Event.warn m := by
  have hl : ¬ cfg.LogType.length = 0 := by rw [string_length_eq_zero]; exact h1
  unfold Initialize config validate
  simp [hl, h0]

/-- Helper: after any Initialize call the installed default logger is either
unchanged, or a newly installed logger whose type attribute is the (then
necessarily non-empty) LogType of the supplied configuration. -/
theorem initialize_defaultLogger_aux (env : Env) (s : State) (cfg : Config) :
    (Initialize env s cfg).1.defaultLogger = s.defaultLogger
    ∨ ∃ lg, (Initialize env s cfg).1.defaultLogger = some lg
        ∧ loggerType lg = some (AttrValue.vStr cfg.LogType)
        ∧ cfg.LogType ≠ "" := by
  by_cases hv : cfg.LogType = ""
  · exact Or.inl (initialize_invalid_aux env s cfg hv).2.1
  · by_cases h0 : s.onceDone
    · exact Or.inl (initialize_done_aux env s cfg h0 hv).1
    · have hl : ¬ cfg.LogType.length = 0 := by rw [string_length_eq_zero]; exact hv
      refine Or.inr ?_
      unfold Initialize config validate connect
      simp only [hl, h0, Bool.false_eq_true, if_false, if_neg, ite_false]
      by_cases hr : env.resolveOk cfg.LogHost cfg.LogPort <;>
        by_cases hd : env.dialOk cfg.LogHost cfg.LogPort <;>
          simp [hr, hd] <;>
          exact ⟨rfl, hv⟩

/-- C2: validate fails exactly when logType is empty, and then its message is
exactly "logType is required"; with non-empty logType it succeeds. -/
theorem validate_spec (s : State) :
    ((validate s).2 = Except.error "logType is required" ↔ s.logType = "")
    ∧ (∀ e, (validate s).2 = Except.error e → e = "logType is required")
    ∧ (s.logType ≠ "" → (validate s).2 = Except.ok ()) := by
  unfold validate
  by_cases h : s.logType = ""
  · simp [h]
  · have hl : ¬ s.logType.length = 0 := by
      rw [string_length_eq_zero]; exact h
    simp [h, hl]

/-- Witness for validate_spec at a concrete configuration state. -/
theorem validate_spec_witness :
    (validate { initialState with logType := "demo" }).2 = Except.ok () :=
  (validate_spec { initialState with logType := "demo" }).2.2 (by decide)

/-- C7: with empty logHost and non-empty logType, validate emits the
localhost warning and still succeeds. -/
theorem validate_empty_logHost (s : State) (h1 : s.logHost = "")
    (h2 : s.logType ≠ "") :
    Event.warn "log.host is not supplied and will default to localhost"
      ∈ (validate s).1
    ∧ (validate s).2 = Except.ok () := by
  have hl : ¬ s.logType.length = 0 := by rw [string_length_eq_zero]; exact h2
  unfold validate
  simp [h1, hl]

/-- Witness for validate_empty_logHost at a concrete configuration state. -/
theorem validate_empty_logHost_witness :
    Event.warn "log.host is not supplied and will default to localhost"
      ∈ (validate { initialState with logType := "demo" }).1
    ∧ (validate { initialState with logType := "demo" }).2 = Except.ok () :=
  validate_empty_logHost { initialState with logType := "demo" } rfl (by decide)

/-- C5: replaceAttr is pure in (groups, attribute): with empty groups it
renames msg to message, time to @timestamp and timestampOverride to
@timestamp, keeping every value and every other key unchanged; with
non-empty groups it is the identity. -/
theorem replaceAttr_spec :
    (∀ a : Attr, (replaceAttr [] a).value = a.value)
    ∧ (∀ a : Attr, a.key = "msg" →
        replaceAttr [] a = Attr.mk "message" a.value)
    ∧ (∀ a : Attr, a.key = "time" →
        replaceAttr [] a = Attr.mk "@timestamp" a.value)
    ∧ (∀ a : Attr, a.key = "timestampOverride" →
        replaceAttr [] a = Attr.mk "@timestamp" a.value)
    ∧ (∀ a : Attr, a.key ≠ "msg" → a.key ≠ "time" →
        a.key ≠ "timestampOverride" → replaceAttr [] a = a)
    ∧ (∀ (gs : List String) (a : Attr), gs ≠ [] → replaceAttr gs a = a) := by
  refine ⟨?_, ?_, ?_, ?_, ?_, ?_⟩
  · intro a
    cases a with
    | mk k v =>
      unfold replaceAttr
      simp only [List.length_nil, if_pos rfl]
      by_cases h1 : k = "msg" <;> by_cases h2 : k = "time" <;>
        by_cases h3 : k = "timestampOverride" <;> simp [h1, h2, h3]
  · intro a h
    cases a with
    | mk k v =>
      simp only at h
      subst h
      rfl
  · intro a h
    cases a with
    | mk k v =>
      simp only at h
      subst h
      rfl
  · intro a h
    cases a with
    | mk k v =>
      simp only at h
      subst h
      rfl
  · intro a h1 h2 h3
    cases a with
    | mk k v =>
      simp only at h1 h2 h3
      unfold replaceAttr
      simp [h1, h2, h3]
  · intro gs a h
    unfold replaceAttr
    have : ¬ gs.length = 0 := by
      simpa [List.length_eq_zero] using h
    simp [this]

/-- Witness for replaceAttr_spec at concrete attributes. -/
theorem replaceAttr_spec_witness :
    replaceAttr [] (Attr.mk "msg" (AttrValue.vStr "x"))
        = Attr.mk "message" (AttrValue.vStr "x")
    ∧ replaceAttr [] (Attr.mk "custom" (AttrValue.vInt 2))
        = Attr.mk "custom" (AttrValue.vInt 2)
    ∧ replaceAttr ["grp"] (Attr.mk "msg" (AttrValue.vStr "x"))
        = Attr.mk "msg" (AttrValue.vStr "x") :=
  ⟨replaceAttr_spec.2.1 _ rfl,
   replaceAttr_spec.2.2.2.2.1 _ (by decide) (by decide) (by decide),
   replaceAttr_spec.2.2.2.2.2 _ _ (by decide)⟩

/-- C3: when validation fails, Initialize returns the validation error
wrapped with the "configuration error" prefix and performs none of the
one-time setup on that call: no transport-open attempt, no logger install,
the once guard and the installed default logger are untouched. -/
theorem Initialize_config_error (env : Env) (s : State) (cfg : Config)
    (h : cfg.LogType = "") :
    (Initialize env s cfg).2.2
        = Except.error "configuration error: logType is required"
    ∧ (Initialize env s cfg).1.defaultLogger = s.defaultLogger
    ∧ (Initialize env s cfg).1.onceDone = s.onceDone
    ∧ (∀ hst p, Event.connectAttempt hst p ∉ (Initialize env s cfg).2.1)
    ∧ Event.install ∉ (Initialize env s cfg).2.1 := by
  have ha := initialize_invalid_aux env s cfg h
  exact ⟨ha.1, ha.2.1, ha.2.2.1, ha.2.2.2.1, ha.2.2.2.2.1⟩

/-- Witness for Initialize_config_error at the default configuration. -/
theorem Initialize_config_error_witness :
    (Initialize envDown initialState NewConfig).2.2
        = Except.error "configuration error: logType is required"
    ∧ (Initialize envDown initialState NewConfig).1.defaultLogger
        = initialState.defaultLogger
    ∧ (Initialize envDown initialState NewConfig).1.onceDone
        = initialState.onceDone
    ∧ (∀ hst p,
        Event.connectAttempt hst p ∉ (Initialize envDown initialState NewConfig).2.1)
    ∧ Event.install ∉ (Initialize envDown initialState NewConfig).2.1 :=
  Initialize_config_error envDown initialState NewConfig rfl

/-- C4: when the configuration is valid but opening the transport fails at
either step on a first call, Initialize still succeeds, logs the degradation
warning, and installs a console-only logger. -/
theorem Initialize_transport_failure (env : Env) (s : State) (cfg : Config)
    (h0 : s.onceDone = false) (h1 : cfg.LogType ≠ "")
    (h2 : env.resolveOk cfg.LogHost cfg.LogPort = false
          ∨ env.dialOk cfg.LogHost cfg.LogPort = false) :
    (Initialize env s cfg).2.2 = Except.ok ()
    ∧ Event.warn "Failed to connect to UDP endpoint, logging to stdout only"
        ∈ (Initialize env s cfg).2.1
    ∧ ∃ lg, (Initialize env s cfg).1.defaultLogger = some lg
        ∧ lg.sinks = Sinks.consoleOnly := by
  have hl : ¬ cfg.LogType.length = 0 := by rw [string_length_eq_zero]; exact h1
  unfold Initialize config validate connect
  rcases h2 with h2 | h2
  · simp [hl, h0, h2]
  · by_cases h3 : env.resolveOk cfg.LogHost cfg.LogPort
    · simp [hl, h0, h2, h3]
    · simp [hl, h0, h3]

/-- Witness for Initialize_transport_failure with an unreachable endpoint. -/
theorem Initialize_transport_failure_witness :
    (Initialize envDown initialState { NewConfig with LogType := "demo" }).2.2
        = Except.ok ()
    ∧ Event.warn "Failed to connect to UDP endpoint, logging to stdout only"
        ∈ (Initialize envDown initialState { NewConfig with LogType := "demo" }).2.1
    ∧ ∃ lg,
        (Initialize envDown initialState
            { NewConfig with LogType := "demo" }).1.defaultLogger = some lg
        ∧ lg.sinks = Sinks.consoleOnly :=
  Initialize_transport_failure envDown initialState
    { NewConfig with LogType := "demo" } rfl (by decide) (Or.inl rfl)

/-- C6: a second Initialize call with a different valid configuration leaves
the installed default logger exactly as the first successful call built it;
the second configuration is still copied into the resolved state and
validated, the call succeeds, and the one-time body does not run again (the
second call emits at most validation warnings). -/
theorem Initialize_second_call_noop (env envB : Env) (s : State)
    (cfg cfgB : Config) (h0 : s.onceDone = false) (h1 : cfg.LogType ≠ "")
    (h2 : cfgB.LogType ≠ "") :
    (Initialize envB (Initialize env s cfg).1 cfgB).1.defaultLogger
        = (Initialize env s cfg).1.defaultLogger
    ∧ (Initialize envB (Initialize env s cfg).1 cfgB).2.2 = Except.ok ()
    ∧ (Initialize envB (Initialize env s cfg).1 cfgB).1.logType = cfgB.LogType
    ∧ (Initialize envB (Initialize env s cfg).1 cfgB).1.messageVersion
        = cfgB.MessageVersion
    ∧ ∀ e ∈ (Initialize envB (Initialize env s cfg).1 cfgB).2.1,
        ∃ m, e = Event.warn m := by
  have hd : (Initialize env s cfg).1.onceDone = true :=
    initialize_installs_aux env s cfg h0 h1
  exact initialize_done_aux envB (Initialize env s cfg).1 cfgB hd h2

/-- Witness for Initialize_second_call_noop at two concrete configurations. -/
theorem Initialize_second_call_noop_witness :
    (Initialize envUp
        (Initialize envUp initialState { NewConfig with LogType := "a" }).1
        { NewConfig with LogType := "b", LogChannel := "Other" }).1.defaultLogger
      = (Initialize envUp initialState { NewConfig with LogType := "a" }).1.defaultLogger
    ∧ (Initialize envUp
        (Initialize envUp initialState { NewConfig with LogType := "a" }).1
        { NewConfig with LogType := "b", LogChannel := "Other" }).2.2
      = Except.ok ()
    ∧ (Initialize envUp
        (Initialize envUp initialState { NewConfig with LogType := "a" }).1
        { NewConfig with LogType := "b", LogChannel := "Other" }).1.logType = "b"
    ∧ (Initialize envUp
        (Initialize envUp initialState { NewConfig with LogType := "a" }).1
        { NewConfig with LogType := "b", LogChannel := "Other" }).1.messageVersion = 1
    ∧ ∀ e ∈ (Initialize envUp
        (Initialize envUp initialState { NewConfig with LogType := "a" }).1
        { NewConfig with LogType := "b", LogChannel := "Other" }).2.1,
        ∃ m, e = Event.warn m :=
  Initialize_second_call_noop envUp envUp initialState
    { NewConfig with LogType := "a" }
    { NewConfig with LogType := "b", LogChannel := "Other" }
    rfl (by decide) (by decide)

/-- C10: when Initialize rejects a configuration with empty LogType, the
process-wide resolved state has already been overwritten before validation
ran: all seven settings equal the rejected configuration's fields and the
hostname was re-read from the environment, with no rollback on error. -/
theorem Initialize_no_rollback (env : Env) (s : State) (cfg : Config)
    (h : cfg.LogType = "") :
    (Initialize env s cfg).1.addSource = cfg.AddSource
    ∧ (Initialize env s cfg).1.applicationName = cfg.ApplicationName
    ∧ (Initialize env s cfg).1.logChannel = cfg.LogChannel
    ∧ (Initialize env s cfg).1.logHost = cfg.LogHost
    ∧ (Initialize env s cfg).1.logPort = cfg.LogPort
    ∧ (Initialize env s cfg).1.logType = cfg.LogType
    ∧ (Initialize env s cfg).1.messageVersion = cfg.MessageVersion
    ∧ (Initialize env s cfg).1.hostname = env.osHostname
    ∧ (Initialize env s cfg).2.2
        = Except.error "configuration error: logType is required" := by
  have ha := initialize_invalid_aux env s cfg h
  exact ⟨ha.2.2.2.2.2.1, ha.2.2.2.2.2.2.1, ha.2.2.2.2.2.2.2.1,
    ha.2.2.2.2.2.2.2.2.1, ha.2.2.2.2.2.2.2.2.2.1, ha.2.2.2.2.2.2.2.2.2.2.1,
    ha.2.2.2.2.2.2.2.2.2.2.2.1, ha.2.2.2.2.2.2.2.2.2.2.2.2, ha.1⟩

/-- Witness for Initialize_no_rollback at a concrete rejected configuration. -/
theorem Initialize_no_rollback_witness :
    (Initialize envDown initialState
        { NewConfig with ApplicationName := "app", MessageVersion := 42 }).1.applicationName
      = "app"
    ∧ (Initialize envDown initialState
        { NewConfig with ApplicationName := "app", MessageVersion := 42 }).1.messageVersion
      = 42
    ∧ (Initialize envDown initialState
        { NewConfig with ApplicationName := "app", MessageVersion := 42 }).1.hostname
      = "test-host"
    ∧ (Initialize envDown initialState
        { NewConfig with ApplicationName := "app", MessageVersion := 42 }).2.2
      = Except.error "configuration error: logType is required" := by
  have ha := Initialize_no_rollback envDown initialState
    { NewConfig with ApplicationName := "app", MessageVersion := 42 } rfl
  exact ⟨ha.2.1, ha.2.2.2.2.2.2.1, ha.2.2.2.2.2.2.2.1, ha.2.2.2.2.2.2.2.2⟩

/-- C1: code behavior at the spec's end-to-end input. Initialize sets
messageVersion to 3 but then config overwrites it with the caller-supplied
cfg.MessageVersion before validation, so a successful Initialize with the
default-constructed configuration (MessageVersion 1) leaves the resolved
version at 1, installs a logger whose @version default attribute is 1, and
every record it emits carries @version 1 rather than the fixed internal 3. -/
theorem Initialize_fixed_version_bug :
    (Initialize envUp initialState
        { NewConfig with LogType := "demo", LogHost := "127.0.0.1", LogPort := 0 }).2.2
      = Except.ok ()
    ∧ (Initialize envUp initialState
        { NewConfig with LogType := "demo", LogHost := "127.0.0.1", LogPort := 0 }).1.messageVersion
      = 1
    ∧ ¬ (Initialize envUp initialState
        { NewConfig with LogType := "demo", LogHost := "127.0.0.1", LogPort := 0 }).1.messageVersion
      = 3
    ∧ (Initialize envUp initialState
        { NewConfig with LogType := "demo", LogHost := "127.0.0.1", LogPort := 0 }).1.defaultLogger
      = some
          { sinks := Sinks.consoleAndRemote, addSource := true,
            attrs :=
              [ Attr.mk "@version" (AttrValue.vInt 1),
                Attr.mk "application" (AttrValue.vStr ""),
                Attr.mk "channel" (AttrValue.vStr "LagoonLogs"),
                Attr.mk "context" AttrValue.emptyGroup,
                Attr.mk "extra" AttrValue.emptyGroup,
                Attr.mk "host" (AttrValue.vStr "test-host"),
                Attr.mk "type" (AttrValue.vStr "demo") ] }
    ∧ Attr.mk "@version" (AttrValue.vInt 1)
        ∈ emitRecord
            { sinks := Sinks.consoleAndRemote, addSource := true,
              attrs :=
                [ Attr.mk "@version" (AttrValue.vInt 1),
                  Attr.mk "application" (AttrValue.vStr ""),
                  Attr.mk "channel" (AttrValue.vStr "LagoonLogs"),
                  Attr.mk "context" AttrValue.emptyGroup,
                  Attr.mk "extra" AttrValue.emptyGroup,
                  Attr.mk "host" (AttrValue.vStr "test-host"),
                  Attr.mk "type" (AttrValue.vStr "demo") ] }
            AttrValue.emptyGroup "INFO" "hello" []
    ∧ Attr.mk "@version" (AttrValue.vInt 3)
        ∉ emitRecord
            { sinks := Sinks.consoleAndRemote, addSource := true,
              attrs :=
                [ Attr.mk "@version" (AttrValue.vInt 1),
                  Attr.mk "application" (AttrValue.vStr ""),
                  Attr.mk "channel" (AttrValue.vStr "LagoonLogs"),
                  Attr.mk "context" AttrValue.emptyGroup,
                  Attr.mk "extra" AttrValue.emptyGroup,
                  Attr.mk "host" (AttrValue.vStr "test-host"),
                  Attr.mk "type" (AttrValue.vStr "demo") ] }
            AttrValue.emptyGroup "INFO" "hello" [] := by
  decide

/-- C8 counterexample: a reachable state in which a dual-sink logger is
installed as the process default while the resolved logType is empty - reach
it by a successful Initialize with LogType "a" followed by a rejected
Initialize with the default configuration, whose config step overwrites
logType with "" before validation fails. -/
theorem installed_logger_empty_logType_reachable :
    Reachable (Initialize envUp
        (Initialize envUp initialState { NewConfig with LogType := "a" }).1
        NewConfig).1
    ∧ (Initialize envUp
        (Initialize envUp initialState { NewConfig with LogType := "a" }).1
        NewConfig).1.logType = ""
    ∧ ((Initialize envUp
        (Initialize envUp initialState { NewConfig with LogType := "a" }).1
        NewConfig).1.defaultLogger.map Logger.sinks)
      = some Sinks.consoleAndRemote := by
  refine ⟨?_, by decide, by decide⟩
  exact Reachable.step envUp NewConfig _
    (Reachable.step envUp { NewConfig with LogType := "a" } _ Reachable.init)

/-- C8 amended: in every reachable state, any installed default logger
carries a non-empty type default attribute - the install step only runs
right after a successful validation, so the logger captured a non-empty
LogType (even though the resolved logType variable itself may later be
overwritten to empty by a rejected reconfiguration). -/
theorem installed_type_nonempty (s : State) (hr : Reachable s) :
    ∀ lg, s.defaultLogger = some lg →
      ∃ t, loggerType lg = some (AttrValue.vStr t) ∧ t ≠ "" := by
  induction hr with
  | init => intro lg h; simp [initialState] at h
  | step env cfg sPrev hs ih =>
    intro lg h
    rcases initialize_defaultLogger_aux env sPrev cfg with hcase | ⟨lgB, h2, h3, h4⟩
    · exact ih lg (hcase ▸ h)
    · rw [h2] at h
      cases h
      exact ⟨cfg.LogType, h3, h4⟩

/-- Witness for installed_type_nonempty at a concrete reachable state. -/
theorem installed_type_nonempty_witness :
    ∃ t, loggerType
        { sinks := Sinks.consoleAndRemote, addSource := true,
          attrs :=
            [ Attr.mk "@version" (AttrValue.vInt 1),
              Attr.mk "application" (AttrValue.vStr ""),
              Attr.mk "channel" (AttrValue.vStr "LagoonLogs"),
              Attr.mk "context" AttrValue.emptyGroup,
              Attr.mk "extra" AttrValue.emptyGroup,
              Attr.mk "host" (AttrValue.vStr "test-host"),
              Attr.mk "type" (AttrValue.vStr "a") ] }
      = some (AttrValue.vStr t) ∧ t ≠ "" :=
  installed_type_nonempty
    (Initialize envUp initialState { NewConfig with LogType := "a" }).1
    (Reachable.step envUp { NewConfig with LogType := "a" } _ Reachable.init)
    { sinks := Sinks.consoleAndRemote, addSource := true,
      attrs :=
        [ Attr.mk "@version" (AttrValue.vInt 1),
          Attr.mk "application" (AttrValue.vStr ""),
          Attr.mk "channel" (AttrValue.vStr "LagoonLogs"),
          Attr.mk "context" AttrValue.emptyGroup,
          Attr.mk "extra" AttrValue.emptyGroup,
          Attr.mk "host" (AttrValue.vStr "test-host"),
          Attr.mk "type" (AttrValue.vStr "a") ] }
    (by decide)
